import Mathlib

/-!
Shallow embedding of the real-time dispatch and matching engine of the
NavigateHer ride-hailing server (`src/realtime/socketHandler.js` and
`src/api/rides/rides.controller.js`).

JavaScript objects keyed by string uids (`onlineDrivers`, `lookingRiders`,
`userSocketMap`) are modelled as association lists `List (String × α)` in
insertion order, matching `for (const uid in obj)` iteration order and the
stability-relevant order of `Array.prototype.sort`.  The external `haversine`
npm library (not part of this repository) is abstracted as a parameter
`dist : Location → Location → ℚ`; every property proved here is independent of
the concrete great-circle formula.  Each socket handler becomes a pure
function from the relevant state to (new state, emitted events).
-/

namespace NavigateHer

/-- A `{lat, lng}` coordinate pair, rational-valued. -/
structure Location where
  lat : ℚ
  lng : ℚ
deriving DecidableEq, Repr

/-- An entry of the `onlineDrivers` pool:
`{ socketId, location, uid, status }` where `status` is one of the string
literals `"available"`, `"pending"`, `"on-ride"` used by the handler code. -/
structure DriverEntry where
  socketId : String
  location : Location
  uid : String
  status : String
deriving DecidableEq, Repr

/-- The `onlineDrivers` object: uid → entry, in insertion order. -/
abbrev DriverPool := List (String × DriverEntry)

/-- The `userSocketMap` object: userId → socketId. -/
abbrev SocketMap := List (String × String)

/-- Lookup `obj[k]` on a string-keyed JS object (first matching key wins;
keys are unique in every state the handlers build). -/
def alistLookup {α : Type} : List (String × α) → String → Option α
  | [], _ => none
  | p :: m, k => if p.1 = k then some p.2 else alistLookup m k

/-- Assignment `obj[k] = v`: overwrite in place if the key exists (keeping its iteration
position), else append (new keys iterate last). -/
def alistSet {α : Type} (m : List (String × α)) (k : String) (v : α) :
    List (String × α) :=
  if m.any (fun p => p.1 = k) then
    m.map (fun p => if p.1 = k then (p.1, v) else p)
  else m ++ [(k, v)]

/-- Deletion `delete obj[k]`: remove the key, other keys keep their order. -/
def alistRemove {α : Type} (m : List (String × α)) (k : String) :
    List (String × α) :=
  m.filter (fun p => ¬ p.1 = k)

/-- Mutate the entry at `k` in place when present; no-op when absent
(the JS handlers guard every such mutation with `if (obj[k])`). -/
def alistUpdate {α : Type} (m : List (String × α)) (k : String) (f : α → α) :
    List (String × α) :=
  m.map (fun p => if p.1 = k then (p.1, f p.2) else p)

/-- Assignment `onlineDrivers[uid].status = st`, guarded by presence. -/
def poolSetStatus (pool : DriverPool) (uid : String) (st : String) : DriverPool :=
  alistUpdate pool uid (fun e => { e with status := st })

/-- The `driver_online` handler (socketHandler.js lines 34-52): after the
`!data.uid || !data.location` guard, it unconditionally overwrites
`onlineDrivers[data.uid]` with a fresh entry whose status is `"available"`.
(The handler also updates `userSocketMap`; that map is threaded separately
where a claim needs it.) -/
def driverOnline (pool : DriverPool) (uid socketId : String) (loc : Location) :
    DriverPool :=
  if uid = "" then pool
  else alistSet pool uid
    { socketId := socketId, location := loc, uid := uid, status := "available" }

/-- The object `{...driver, distance}` pushed by `findNearbyDrivers`. -/
structure Candidate where
  socketId : String
  location : Location
  uid : String
  status : String
  distance : ℚ
deriving DecidableEq, Repr

/-- Spread a driver entry and attach its computed distance. -/
def candidateOf (e : DriverEntry) (d : ℚ) : Candidate :=
  { socketId := e.socketId, location := e.location, uid := e.uid,
    status := e.status, distance := d }

/-- Function `findNearbyDrivers(riderLocation, radiusInKm = 10, excludedDriverId = null)`
(socketHandler.js lines 395-418): iterate the pool in insertion order, skip the
single excluded key, keep `status === "available"` entries whose distance is
`<= radiusInKm`, then `sort((a, b) => a.distance - b.distance)` — a stable
ascending sort by distance (ECMAScript guarantees sort stability; a stable
sort w.r.t. the total preorder "by distance" is unique, and is modelled here
by the stable `List.insertionSort`).  `excludedDriverId` is one optional id,
not a set: `uid === null` is false for every string key, so `none` excludes
nothing. -/
def findNearbyDrivers (dist : Location → Location → ℚ) (pool : DriverPool)
    (riderLocation : Location) (radiusInKm : ℚ)
    (excludedDriverId : Option String) : List Candidate :=
  List.insertionSort (fun a b => a.distance ≤ b.distance)
    (pool.filterMap (fun p =>
      if some p.1 = excludedDriverId then none
      else if p.2.status = "available" then
        if dist riderLocation p.2.location ≤ radiusInKm then
          some (candidateOf p.2 (dist riderLocation p.2.location))
        else none
      else none))

/-- The `rideDetails` payload of a `new_ride_request` offer. -/
structure RideDetails where
  rideId : String
  pickup : Location
  destination : Location
deriving DecidableEq, Repr

/-- Events emitted over sockets by the handlers modelled here, tagged with the
destination socket id. -/
inductive OutEvent where
  | newRideRequest (socketId : String) (details : RideDetails)
  | rideConfirmed (socketId : String) (rideId : String)
  | rideAccepted (socketId : String) (rideId : String) (driverDetails : String)
  | rideUpdateFailed (socketId : String) (rideId : String)
  | noDriverFound (socketId : String) (rideId : String)
  | communityConnectionRequested (socketId fromUid riderDetails : String)
  | communityRequestFailed (socketId toUid reason : String)
  | communityConnectionAccepted (socketId acceptedByUid riderDetails : String)
  | initiateVideoCall (socketId roomId otherUserId otherUserDetails : String)
  | communityVideoFailed (socketId reason : String)
deriving DecidableEq, Repr

/-- Helper `findSocketIdForUser` (socketHandler.js lines 360-362). -/
def findSocketIdForUser (m : SocketMap) (userId : String) : Option String :=
  alistLookup m userId

/-- Helpers `notifyUser` / `notifyRider` (socketHandler.js lines 365-383): emit to the
user's socket when connected, otherwise drop (returning no event). -/
def notifyUser (m : SocketMap) (userId : String) (mk : String → OutEvent) :
    List OutEvent :=
  match findSocketIdForUser m userId with
  | some sid => [mk sid]
  | none => []

/-- Helper `sendRideRequestToDriver(driverUid, rideDetails)` (socketHandler.js lines
420-447): if the driver is in the pool with a truthy socket id, emit
`new_ride_request`, set the driver's status to `"pending"`, arm a 30 s timeout
(modelled separately as `offerTimeoutFire`) and return `true`; otherwise
return `false` without touching any state.  Result: (pool after,
send succeeded, emitted events). -/
def sendRideRequestToDriver (pool : DriverPool) (driverUid : String)
    (rideDetails : RideDetails) : DriverPool × Bool × List OutEvent :=
  match alistLookup pool driverUid with
  | some driver =>
      if driver.socketId = "" then (pool, false, [])
      else (poolSetStatus pool driverUid "pending", true,
            [OutEvent.newRideRequest driver.socketId rideDetails])
  | none => (pool, false, [])

/-- The body of the `setTimeout` armed by `sendRideRequestToDriver`
(socketHandler.js lines 428-440), run when the 30 s timer fires: if the driver
is still in the pool with status `"pending"`, reset it to `"available"`.
Nothing else happens — the re-dispatch call (`findNextDriverForRide`) is only
a comment in the source, so the callback emits no events and runs no candidate
search.  The timer is never cancelled (`clearTimeout` does not occur in the
source); it checks only the status string, not which ride armed it. -/
def offerTimeoutFire (pool : DriverPool) (driverUid : String) :
    DriverPool × List OutEvent :=
  match alistLookup pool driverUid with
  | some d =>
      if d.status = "pending" then (poolSetStatus pool driverUid "available", [])
      else (pool, [])
  | none => (pool, [])

/-- The fields of a Firestore `rides` document that the modelled handlers read
or write. `status` values occurring here: `"pending"`, `"accepted"`,
`"rejected_by_driver"`, `"cancelled_system"`. -/
structure RideDoc where
  rideId : String
  riderId : String
  status : String
  pickup : Location
  destination : Location
  driverId : Option String
  rejectedBy : Option String
  cancellationReason : Option String
deriving DecidableEq, Repr

/-- The `driver_accepted` handler (socketHandler.js lines 75-115).
`persistOk` is the outcome of the awaited `rideRef.update({status:
"accepted", ...})`.  The handler first marks the driver `"on-ride"` in the
pool; on persistence success it emits `ride_confirmed` to the driver's own
socket and notifies the rider (`ride_accepted`); on persistence failure the
`catch` block emits `ride_update_failed` to the driver and reverts the
driver's pool status to `"available"`. -/
def driverAccepted (pool : DriverPool) (map : SocketMap)
    (driverUid driverSocket rideId driverDetails : String) (ride : RideDoc)
    (persistOk : Bool) : DriverPool × RideDoc × List OutEvent :=
  let pool1 := poolSetStatus pool driverUid "on-ride"
  if persistOk then
    let ride1 := { ride with status := "accepted", driverId := some driverUid }
    (pool1, ride1,
     OutEvent.rideConfirmed driverSocket rideId ::
       (if ride1.riderId = "" then []
        else notifyUser map ride1.riderId
          (fun sid => OutEvent.rideAccepted sid rideId driverDetails)))
  else
    (poolSetStatus pool1 driverUid "available", ride,
     [OutEvent.rideUpdateFailed driverSocket rideId])

/-- The `driver_rejected` handler (socketHandler.js lines 117-187).
The rejecting driver is set back to `"available"`; the ride document gets
`status = "rejected_by_driver"`; then the handler re-runs
`findNearbyDrivers(rideData.pickup, 10, socket.driverUID)` — excluding ONLY
the driver who just rejected.  Non-empty result: the ride is reset to
`"pending"` with no driver and the nearest candidate is offered via
`sendRideRequestToDriver`.  Empty result: the ride is set to
`"cancelled_system"` with reason `"No drivers available after rejection."`
and the rider is notified `no_driver_found`.  `ride?` is
`rideSnapshot.data()`, which may be `undefined`. -/
def driverRejected (dist : Location → Location → ℚ) (pool : DriverPool)
    (map : SocketMap) (driverUid rideId : String) (ride? : Option RideDoc) :
    DriverPool × Option RideDoc × List OutEvent :=
  let pool1 := poolSetStatus pool driverUid "available"
  match ride? with
  | none => (pool1, none, [])
  | some ride =>
    let ride1 := { ride with
      status := "rejected_by_driver", rejectedBy := some driverUid }
    match findNearbyDrivers dist pool1 ride.pickup 10 (some driverUid) with
    | next :: _ =>
        let ride2 := { ride1 with status := "pending", driverId := none }
        let s := sendRideRequestToDriver pool1 next.uid
          { rideId := rideId, pickup := ride.pickup,
            destination := ride.destination }
        (s.1, some ride2, s.2.2)
    | [] =>
        let ride2 := { ride1 with
          status := "cancelled_system",
          cancellationReason := some "No drivers available after rejection." }
        (pool1, some ride2,
         notifyUser map ride.riderId
           (fun sid => OutEvent.noDriverFound sid rideId))

/-- A `pendingRequestFrom` record on a looking rider:
`{ uid, details }` of the inviting rider. -/
structure PendingRequest where
  uid : String
  details : String
deriving DecidableEq, Repr

/-- An entry of the `lookingRiders` pool (rider details payloads are modelled
as opaque strings; stored invites always passed the handler's truthiness
guard, so a present `pendingRequestFrom` counts as truthy). -/
structure RiderEntry where
  socketId : String
  uid : String
  location : Location
  destination : Location
  pendingRequestFrom : Option PendingRequest
deriving DecidableEq, Repr

/-- The `lookingRiders` object: uid → entry, in insertion order. -/
abbrev RiderPool := List (String × RiderEntry)

/-- The `request_community_connection` handler (socketHandler.js lines
218-237): if the target `toUid` is in the looking pool, record
`pendingRequestFrom = {uid: fromUid, details}` on the target (last invite
wins) and emit `community_connection_requested` to the target's socket;
otherwise emit `community_request_failed` back on the sender's socket with
reason `"User is no longer available."`. -/
def requestCommunityConnection (riders : RiderPool)
    (fromUid toUid riderADetails senderSocket : String) :
    RiderPool × List OutEvent :=
  match alistLookup riders toUid with
  | some riderB =>
      (alistUpdate riders toUid (fun e =>
         { e with
           pendingRequestFrom := some ⟨fromUid, riderADetails⟩ }),
       [OutEvent.communityConnectionRequested riderB.socketId fromUid
          riderADetails])
  | none =>
      (riders,
       [OutEvent.communityRequestFailed senderSocket toUid
          "User is no longer available."])

/-- The `accept_community_connection` handler (socketHandler.js lines
239-285).  Success requires `lookingRiders[acceptedUid]` present AND
`lookingRiders[myUid]?.pendingRequestFrom?.details` present — the handler
never compares `pendingRequestFrom.uid` against `acceptedUid`.  On success:
emit `community_connection_accepted` plus `initiate_video_call` (room id
built from the clock `ts` and both uids) to rider A's socket, emit
`initiate_video_call` with the same room id to the responder's socket, clear
the responder's pending invite, and delete both pool entries.  On failure:
emit `community_video_failed` to the responder AND still clear the
responder's pending invite (`if (riderB) delete riderB.pendingRequestFrom`).
`mySocket` is the handling socket (the responder's). -/
def acceptCommunityConnection (riders : RiderPool)
    (acceptedUid myUid myDetails mySocket : String) (ts : Nat) :
    RiderPool × List OutEvent :=
  let riderA? := alistLookup riders acceptedUid
  let riderADetails? := (alistLookup riders myUid).bind
    (fun b => b.pendingRequestFrom.map (fun r => r.details))
  match riderA?, riderADetails? with
  | some riderA, some riderADetails =>
      let roomId :=
        "video_" ++ toString ts ++ "_" ++ acceptedUid ++ "_" ++ myUid
      let riders1 := alistUpdate riders myUid
        (fun e => { e with pendingRequestFrom := none })
      (alistRemove (alistRemove riders1 acceptedUid) myUid,
       [OutEvent.communityConnectionAccepted riderA.socketId myUid myDetails,
        OutEvent.initiateVideoCall riderA.socketId roomId myUid myDetails,
        OutEvent.initiateVideoCall mySocket roomId acceptedUid riderADetails])
  | _, _ =>
      (alistUpdate riders myUid (fun e => { e with pendingRequestFrom := none }),
       [OutEvent.communityVideoFailed mySocket
          "Other user disconnected or request expired."])

/-- A match pushed by `findNearbyRiders`. -/
structure RiderMatch where
  uid : String
  location : Location
  destination : Location
  distance : ℚ
  socketId : String
deriving DecidableEq, Repr

/-- Function `findNearbyRiders(selfUid, riderLocation, riderDestination)`
(socketHandler.js lines 449-477): skip self, keep riders whose pickup
distance is ≤ 1.5 km and destination distance ≤ 5 km, sorted ascending by
pickup distance (same stable sort). -/
def findNearbyRiders (dist : Location → Location → ℚ) (riders : RiderPool)
    (selfUid : String) (riderLocation riderDestination : Location) :
    List RiderMatch :=
  List.insertionSort (fun a b => a.distance ≤ b.distance)
    (riders.filterMap (fun p =>
      if p.1 = selfUid then none
      else
        let pd := dist riderLocation p.2.location
        if pd ≤ mkRat 3 2 then
          if dist riderDestination p.2.destination ≤ 5 then
            some { uid := p.2.uid, location := p.2.location,
                   destination := p.2.destination, distance := pd,
                   socketId := p.2.socketId }
          else none
        else none))

/-- The HTTP outcome of `requestRide` (rides.controller.js lines 133-240),
one constructor per response branch. -/
inductive RequestRideResult where
  /-- Branch 404 `NO_DRIVERS_OR_RIDERS`: no drivers and no community matches; no
  ride document is ever created. -/
  | noMatches
  /-- Branch 200 `COMMUNITY_MATCH_FOUND`: no drivers but nearby looking riders; no
  ride document is created. -/
  | communityMatch (peerMatches : List RiderMatch)
  /-- Branch 503: a nearest driver was found but `sendRideRequestToDriver` returned
  `false`; the just-created ride document is updated to `"cancelled_system"`
  with reason `"Driver unavailable"` and the rider is told to try again.  The
  source carries a `TODO: Implement logic to try the next driver` here — no
  further candidate is tried. -/
  | driverUnreachable (ride : RideDoc) (pool : DriverPool)
  /-- Branch 200: the offer was emitted to the nearest driver. -/
  | requested (ride : RideDoc) (pool : DriverPool) (events : List OutEvent)
      (driverUid : String)
deriving DecidableEq, Repr

/-- Controller `requestRide` (rides.controller.js lines 133-240).  `poolAtFind` is the
driver pool as read by `findNearbyDrivers(pickupLocation, 10)` (no exclusion)
and `poolAtSend` the pool as read by `sendRideRequestToDriver` — the awaited
Firestore `add` between the two calls means the pool can change in between.
`rideId` is the id Firestore assigns to the created document. -/
def requestRide (dist : Location → Location → ℚ)
    (poolAtFind poolAtSend : DriverPool) (riders : RiderPool)
    (riderId rideId : String) (pickup destination : Location) :
    RequestRideResult :=
  match findNearbyDrivers dist poolAtFind pickup 10 none with
  | [] =>
      let peerMatches := findNearbyRiders dist riders riderId pickup destination
      if peerMatches.isEmpty then .noMatches else .communityMatch peerMatches
  | closest :: _ =>
      let ride : RideDoc :=
        { rideId := rideId, riderId := riderId, status := "pending",
          pickup := pickup, destination := destination, driverId := none,
          rejectedBy := none, cancellationReason := none }
      let s := sendRideRequestToDriver poolAtSend closest.uid
        { rideId := rideId, pickup := pickup, destination := destination }
      if s.2.1 then .requested ride s.1 s.2.2 closest.uid
      else .driverUnreachable
        { ride with
          status := "cancelled_system",
          cancellationReason := some "Driver unavailable" } s.1

/-- A concrete stand-in distance (taxicab on the coordinate numerators, which
coincides with taxicab distance on the integer-coordinate fixtures below) used
to instantiate the abstract `dist` parameter in concrete scenarios; the
repository's actual metric is the external `haversine` npm package, on which
none of the proved properties depend. -/
def demoDist (p q : Location) : ℚ :=
  (((p.lat.num - q.lat.num).natAbs + (p.lng.num - q.lng.num).natAbs : ℕ) : ℚ)

/-- Fixture: pickup location of the demo rider. -/
def locO : Location := ⟨0, 0⟩

/-- Fixture: destination of the demo rides. -/
def locD : Location := ⟨0, 20⟩

/-- Fixture: driver location 1 km from `locO` under `demoDist`. -/
def locA : Location := ⟨1, 0⟩

/-- Fixture: driver location 2 km from `locO` under `demoDist`. -/
def locB : Location := ⟨2, 0⟩

/-- Fixture: online driver `"a"`, 1 km out, available. -/
def entA : DriverEntry := ⟨"sA", locA, "a", "available"⟩

/-- Fixture: online driver `"b"`, 2 km out, available. -/
def entB : DriverEntry := ⟨"sB", locB, "b", "available"⟩

/-- Fixture: online driver `"b"` co-located with driver `"a"` (equal
distances, for the tie-break scenario). -/
def entB1 : DriverEntry := ⟨"sB", locA, "b", "available"⟩

/-- Fixture: a pending ride document for rider `"r"`. -/
def demoRide : RideDoc := ⟨"R", "r", "pending", locO, locD, none, none, none⟩

/-- Fixture: a second pending ride document (for the stale-timer scenario). -/
def demoRide1 : RideDoc := ⟨"R1", "r", "pending", locO, locD, none, none, none⟩

/-- Fixture: socket map knowing rider `"r"`. -/
def demoMap : SocketMap := [("r", "sr")]

end NavigateHer

namespace NavigateHer

/-- Lookup after an in-place update: the updated key reads back through `f`,
other keys are untouched. -/
theorem alistLookup_update {α : Type} (m : List (String × α)) (k k' : String)
    (f : α → α) :
    alistLookup (alistUpdate m k f) k' =
      if k' = k then (alistLookup m k').map f else alistLookup m k' := by
  induction m with
  | nil => simp [alistLookup, alistUpdate]
  | cons p m ih =>
    simp only [alistUpdate, List.map_cons] at ih ⊢
    by_cases hpk : p.1 = k
    · by_cases hpk' : p.1 = k'
      · have hk : k' = k := hpk' ▸ hpk
        simp [alistLookup, hpk, hpk', hk]
      · have hk : ¬ k' = k := fun h => hpk' (h ▸ hpk)
        have hk2 : ¬ k = k' := fun h => hk h.symm
        simp [alistLookup, hpk, hpk', hk, hk2, ih]
    · by_cases hpk' : p.1 = k'
      · have hk : ¬ k' = k := fun h => hpk (h ▸ hpk')
        simp [alistLookup, hpk, hpk', hk]
      · simp [alistLookup, hpk, hpk', ih]

/-- Lookup after a deletion: the deleted key reads as absent, other keys are
untouched. -/
theorem alistLookup_remove {α : Type} (m : List (String × α)) (k k' : String) :
    alistLookup (alistRemove m k) k' =
      if k' = k then none else alistLookup m k' := by
  induction m with
  | nil => simp [alistLookup, alistRemove]
  | cons p m ih =>
    by_cases hpk : p.1 = k
    · by_cases hk : k' = k
      · simpa [alistRemove, List.filter_cons, hpk, hk] using ih
      · have hpk' : ¬ p.1 = k' := fun h => hk (h ▸ hpk)
        have hk2 : ¬ k = k' := fun h => hk h.symm
        simpa [alistRemove, List.filter_cons, alistLookup, hpk, hk, hpk', hk2]
          using ih
    · by_cases hpk' : p.1 = k'
      · have hk : ¬ k' = k := fun h => hpk (h ▸ hpk')
        simp [alistRemove, List.filter_cons, alistLookup, hpk, hpk', hk]
      · simpa [alistRemove, List.filter_cons, alistLookup, hpk, hpk'] using ih

/-- Lemma for `alistLookup_set_self`: appended fresh keys read back. -/
theorem alistLookup_append_fresh {α : Type} (m : List (String × α))
    (k : String) (v : α) (h : ∀ p ∈ m, ¬ p.1 = k) :
    alistLookup (m ++ [(k, v)]) k = some v := by
  induction m with
  | nil => simp [alistLookup]
  | cons p m ih =>
    have hpk : ¬ p.1 = k := h p (List.mem_cons_self p m)
    simpa [alistLookup, hpk]
      using ih (fun q hq => h q (List.mem_cons_of_mem p hq))

/-- Lookup after `obj[k] = v` reads back `v`. -/
theorem alistLookup_set_self {α : Type} (m : List (String × α)) (k : String)
    (v : α) : alistLookup (alistSet m k v) k = some v := by
  unfold alistSet
  by_cases h : m.any (fun p => p.1 = k)
  · simp only [if_pos h]
    induction m with
    | nil => simp at h
    | cons p m ih =>
      by_cases hpk : p.1 = k
      · simp [alistLookup, hpk]
      · have hm : m.any (fun p => p.1 = k) := by
          simp only [List.any_cons, hpk] at h
          simpa using h
        simp only [List.map_cons, if_neg hpk]
        simpa [alistLookup, hpk] using ih hm
  · simp only [if_neg h]
    simp only [List.any_eq_true, decide_eq_true_eq] at h
    push_neg at h
    exact alistLookup_append_fresh m k v (fun p hp => h p hp)

/-- A successful lookup certifies membership of the key-value pair. -/
theorem mem_of_alistLookup {α : Type} {m : List (String × α)} {k : String}
    {v : α} (h : alistLookup m k = some v) : (k, v) ∈ m := by
  induction m with
  | nil => simp [alistLookup] at h
  | cons p m ih =>
    by_cases hpk : p.1 = k
    · simp only [alistLookup, if_pos hpk] at h
      have : p = (k, v) := by
        cases p
        simp_all
      exact this ▸ List.mem_cons_self p m
  -- wrong: placeholder
    · simp only [alistLookup, if_neg hpk] at h
      exact List.mem_cons_of_mem _ (ih h)

/-- Membership in the candidate list: exactly the non-excluded available pool
entries within the radius, spread with their computed distance. -/
theorem mem_findNearbyDrivers {dist : Location → Location → ℚ}
    {pool : DriverPool} {loc : Location} {r : ℚ} {exc : Option String}
    {c : Candidate} :
    c ∈ findNearbyDrivers dist pool loc r exc ↔
      ∃ p ∈ pool, ¬ some p.1 = exc ∧ p.2.status = "available" ∧
        dist loc p.2.location ≤ r ∧
        c = candidateOf p.2 (dist loc p.2.location) := by
  unfold findNearbyDrivers
  rw [List.mem_insertionSort, List.mem_filterMap]
  constructor
  · rintro ⟨p, hp, hf⟩
    by_cases h1 : some p.1 = exc
    · simp [h1] at hf
    · by_cases h2 : p.2.status = "available"
      · by_cases h3 : dist loc p.2.location ≤ r
        · simp only [h1, h2, h3, if_true, if_false, if_neg, if_pos,
            Option.some.injEq] at hf
          exact ⟨p, hp, h1, h2, h3, hf.symm⟩
        · simp [h1, h2, h3] at hf
      · simp [h1, h2] at hf
  · rintro ⟨p, hp, h1, h2, h3, rfl⟩
    exact ⟨p, hp, by simp [h1, h2, h3]⟩

/-- The candidate list is sorted ascending by distance. -/
theorem findNearbyDrivers_sorted (dist : Location → Location → ℚ)
    (pool : DriverPool) (loc : Location) (r : ℚ) (exc : Option String) :
    (findNearbyDrivers dist pool loc r exc).Sorted
      (fun a b => a.distance ≤ b.distance) := by
  unfold findNearbyDrivers
  letI : IsTotal Candidate (fun a b => a.distance ≤ b.distance) :=
    ⟨fun a b => le_total a.distance b.distance⟩
  letI : IsTrans Candidate (fun a b => a.distance ≤ b.distance) :=
    ⟨fun _ _ _ hab hbc => le_trans hab hbc⟩
  exact List.sorted_insertionSort _ _

/-- C2: the claim says offer-timeout expiry is treated identically to an
explicit rejection (mark available, extend the exclusion set, re-run the
candidate search).  Evaluating the timer callback on a concrete state where
driver `"a"` holds a timed-out offer while driver `"b"` is available 2 km
away: the callback only resets `"a"` to `"available"` and emits nothing — no
exclusion is recorded and no new offer goes out, even though a re-run of the
candidate search (second conjunct) would have found `"b"`. -/
theorem C2_timeout_fire_resets_only :
    offerTimeoutFire
        [("a", { entA with status := "pending" }), ("b", entB)] "a" =
      ([("a", entA), ("b", entB)], []) ∧
    findNearbyDrivers demoDist
        (offerTimeoutFire
          [("a", { entA with status := "pending" }), ("b", entB)] "a").1
        locO 10 (some "a") ≠ [] := by
  constructor
  · decide
  · decide

/-- C7: when persisting the `accepted` transition fails, the
`driver_accepted` handler reverts the driver's in-memory pool entry to
`"available"` (rather than leaving it marked for the ride), leaves the ride
document unchanged, and surfaces the failure to the driver as a single
`ride_update_failed` event. -/
theorem C7_persist_failure_rollback (pool : DriverPool) (map : SocketMap)
    (d dSock rideId ddet : String) (ride : RideDoc) (e : DriverEntry)
    (he : alistLookup pool d = some e) :
    alistLookup (driverAccepted pool map d dSock rideId ddet ride false).1 d =
      some { e with status := "available" } ∧
    (driverAccepted pool map d dSock rideId ddet ride false).2.1 = ride ∧
    (driverAccepted pool map d dSock rideId ddet ride false).2.2 =
      [OutEvent.rideUpdateFailed dSock rideId] := by
  refine ⟨?_, rfl, rfl⟩
  simp [driverAccepted, poolSetStatus, alistLookup_update, he]

/-- Witness for C7 at a concrete one-driver pool. -/
theorem C7_persist_failure_rollback_witness :
    alistLookup
        (driverAccepted [("a", entA)] demoMap "a" "sA" "R" "dd" demoRide
          false).1 "a" =
      some { entA with status := "available" } ∧
    (driverAccepted [("a", entA)] demoMap "a" "sA" "R" "dd" demoRide
        false).2.1 = demoRide ∧
    (driverAccepted [("a", entA)] demoMap "a" "sA" "R" "dd" demoRide
        false).2.2 = [OutEvent.rideUpdateFailed "sA" "R"] :=
  C7_persist_failure_rollback [("a", entA)] demoMap "a" "sA" "R" "dd" demoRide
    entA (by decide)

/-- C9 (amended): accept/reject does not cancel the armed timer; instead, a
later firing is a no-op — no pool change and no emitted events — whenever the
driver's status is not `"pending"` at firing time (after an accept it is
`"on-ride"`, after a reject `"available"`).  The unamended claim fails when a
later offer has returned the driver to `"pending"`: see the stale-timer
counterexample. -/
theorem C9_fire_noop_unless_pending (pool : DriverPool) (d : String)
    (h : ∀ e, alistLookup pool d = some e → ¬ e.status = "pending") :
    offerTimeoutFire pool d = (pool, []) := by
  unfold offerTimeoutFire
  cases he : alistLookup pool d with
  | none => rfl
  | some e => simp [h e he]

/-- Witness for C9 with an on-ride (just accepted) driver. -/
theorem C9_fire_noop_unless_pending_witness :
    offerTimeoutFire [("a", { entA with status := "on-ride" })] "a" =
      ([("a", { entA with status := "on-ride" })], []) :=
  C9_fire_noop_unless_pending [("a", { entA with status := "on-ride" })] "a"
    (by
      intro e he
      simp [alistLookup] at he
      simp [← he])

/-- C9 counterexample: driver `"a"` is offered ride `R1` (timer T1 armed),
rejects it, and is then offered ride `R2` (timer T2 armed, status back to
`"pending"`).  When the uncancelled T1 now fires — its offer long since
rejected — it is not a no-op: it resets the driver from `"pending"` back to
`"available"`, clobbering the live `R2` offer. -/
theorem C9_stale_timer_mutates_state :
    let s1 := sendRideRequestToDriver [("a", entA)] "a" ⟨"R1", locO, locD⟩
    let r1 := driverRejected demoDist s1.1 demoMap "a" "R1" (some demoRide1)
    let s2 := sendRideRequestToDriver r1.1 "a" ⟨"R2", locO, locD⟩
    (offerTimeoutFire s2.1 "a").1 ≠ s2.1 ∧
    alistLookup s2.1 "a" = some { entA with status := "pending" } ∧
    alistLookup (offerTimeoutFire s2.1 "a").1 "a" =
      some { entA with status := "available" } := by
  refine ⟨by decide, by decide, by decide⟩

/-- C10: a `driver_online` announcement with a non-empty uid unconditionally
overwrites that driver's pool entry with `status = "available"` — whatever
the prior entry recorded (`"pending"` offer in flight or `"on-ride"`) — and
the driver immediately shows up again in any candidate search whose origin is
within the radius and which does not exclude that id. -/
theorem C10_online_overwrites_to_available (pool : DriverPool)
    (uid sock : String) (loc : Location) (h : ¬ uid = "") :
    alistLookup (driverOnline pool uid sock loc) uid =
      some { socketId := sock, location := loc, uid := uid,
             status := "available" } ∧
    ∀ (dist : Location → Location → ℚ) (origin : Location) (r : ℚ)
      (exc : Option String), dist origin loc ≤ r → ¬ exc = some uid →
      candidateOf
          { socketId := sock, location := loc, uid := uid,
            status := "available" } (dist origin loc) ∈
        findNearbyDrivers dist (driverOnline pool uid sock loc) origin r
          exc := by
  have h1 : alistLookup (driverOnline pool uid sock loc) uid =
      some { socketId := sock, location := loc, uid := uid,
             status := "available" } := by
    unfold driverOnline
    rw [if_neg h]
    exact alistLookup_set_self pool uid _
  refine ⟨h1, fun dist origin r exc hr hexc => ?_⟩
  rw [mem_findNearbyDrivers]
  exact ⟨(uid, { socketId := sock, location := loc, uid := uid,
                 status := "available" }),
    mem_of_alistLookup h1, fun hc => hexc hc.symm, rfl, hr, rfl⟩

/-- Witness for C10: driver `"a"`, previously `"on-ride"` at `locB`, comes
online again at `locA` and is at once available and a candidate. -/
theorem C10_online_overwrites_to_available_witness :
    alistLookup
        (driverOnline [("a", ⟨"sA", locB, "a", "on-ride"⟩)] "a" "sA2" locA)
        "a" = some ⟨"sA2", locA, "a", "available"⟩ ∧
    candidateOf ⟨"sA2", locA, "a", "available"⟩ (demoDist locO locA) ∈
      findNearbyDrivers demoDist
        (driverOnline [("a", ⟨"sA", locB, "a", "on-ride"⟩)] "a" "sA2" locA)
        locO 10 none := by
  have h := C10_online_overwrites_to_available
    [("a", ⟨"sA", locB, "a", "on-ride"⟩)] "a" "sA2" locA (by decide)
  exact ⟨h.1, h.2 demoDist locO 10 none (by decide) (by decide)⟩

/-- C3 counterexample: two drivers `"a"` and `"b"` at the same location
(equal distance 1) produce the candidate orders `["b", "a"]` or `["a", "b"]`
depending purely on pool insertion order, with equal distances and distinct
ids; so no antisymmetric id order can describe the tie-breaking — ties are
NOT ordered by driver id, contrary to the claim. -/
theorem C3_ties_not_ordered_by_id :
    findNearbyDrivers demoDist [("b", entB1), ("a", entA)] locO 10 none =
      [candidateOf entB1 1, candidateOf entA 1] ∧
    findNearbyDrivers demoDist [("a", entA), ("b", entB1)] locO 10 none =
      [candidateOf entA 1, candidateOf entB1 1] ∧
    (candidateOf entB1 1).distance = (candidateOf entA 1).distance ∧
    ¬ (candidateOf entB1 1).uid = (candidateOf entA 1).uid ∧
    ∀ le : String → String → Prop, (∀ x y, le x y → le y x → x = y) →
      ¬ ((findNearbyDrivers demoDist [("b", entB1), ("a", entA)] locO 10
            none).Pairwise (fun u v =>
              u.distance < v.distance ∨
                (u.distance = v.distance ∧ le u.uid v.uid)) ∧
         (findNearbyDrivers demoDist [("a", entA), ("b", entB1)] locO 10
            none).Pairwise (fun u v =>
              u.distance < v.distance ∨
                (u.distance = v.distance ∧ le u.uid v.uid))) := by
  refine ⟨by decide, by decide, by decide, by decide, ?_⟩
  rintro le hanti ⟨h1, h2⟩
  rw [show findNearbyDrivers demoDist [("b", entB1), ("a", entA)] locO 10
        none = [candidateOf entB1 1, candidateOf entA 1] from by decide] at h1
  rw [show findNearbyDrivers demoDist [("a", entA), ("b", entB1)] locO 10
        none = [candidateOf entA 1, candidateOf entB1 1] from by decide] at h2
  simp only [List.pairwise_cons, List.mem_singleton, forall_eq,
    List.Pairwise.nil, and_true] at h1 h2
  rcases h1 with hlt | ⟨-, hba⟩
  · exact absurd hlt (by decide)
  rcases h2 with hlt | ⟨-, hab⟩
  · exact absurd hlt (by decide)
  exact absurd (hanti _ _ hba hab) (by decide)

/-- C3 (amended): every candidate returned by `findNearbyDrivers` is
available, within the radius and not the (single) excluded id, and the list
is sorted ascending by distance; but equal-distance entries are kept in pool
insertion order by the stable sort, not reordered by driver id.  `hwf` states
the invariant that pool keys equal the stored `uid` field (every write in the
source uses `onlineDrivers[data.uid] = { uid: data.uid, ... }`). -/
theorem C3_findNearby_filter_and_sorted (dist : Location → Location → ℚ)
    (pool : DriverPool) (loc : Location) (r : ℚ) (exc : Option String)
    (hwf : ∀ p ∈ pool, (p.2).uid = p.1) :
    (∀ c ∈ findNearbyDrivers dist pool loc r exc,
        c.status = "available" ∧ c.distance ≤ r ∧ ¬ some c.uid = exc) ∧
    (findNearbyDrivers dist pool loc r exc).Sorted
      (fun a b => a.distance ≤ b.distance) := by
  refine ⟨fun c hc => ?_, findNearbyDrivers_sorted dist pool loc r exc⟩
  rw [mem_findNearbyDrivers] at hc
  obtain ⟨p, hp, h1, h2, h3, rfl⟩ := hc
  refine ⟨by simpa [candidateOf] using h2, h3, ?_⟩
  simpa [candidateOf, hwf p hp] using h1

/-- Witness for C3 on a pool with an excluded driver and an on-ride driver. -/
theorem C3_findNearby_filter_and_sorted_witness :
    (∀ c ∈ findNearbyDrivers demoDist
        [("b", entB), ("x", ⟨"sX", locA, "x", "on-ride"⟩), ("a", entA)]
        locO 10 (some "b"),
        c.status = "available" ∧ c.distance ≤ 10 ∧ ¬ some c.uid = some "b") ∧
    (findNearbyDrivers demoDist
        [("b", entB), ("x", ⟨"sX", locA, "x", "on-ride"⟩), ("a", entA)]
        locO 10 (some "b")).Sorted
      (fun a b => a.distance ≤ b.distance) :=
  C3_findNearby_filter_and_sorted demoDist
    [("b", entB), ("x", ⟨"sX", locA, "x", "on-ride"⟩), ("a", entA)]
    locO 10 (some "b") (by decide)

/-- C1 counterexample: ride `R` with drivers `"a"` (1 km) and `"b"` (2 km).
The offer goes to `"a"`; `"a"` rejects, so the handler searches excluding
only `"a"` and offers to `"b"`; `"b"` then rejects, and the handler searches
excluding only `"b"` — `"a"`, who explicitly rejected this very ride one
round earlier, reappears in the candidate list and is sent the offer again.
The exclusion does not accumulate across rounds. -/
theorem C1_rejector_reappears :
    let s1 := sendRideRequestToDriver [("a", entA), ("b", entB)] "a"
      ⟨"R", locO, locD⟩
    let r1 := driverRejected demoDist s1.1 demoMap "a" "R" (some demoRide)
    let r2 := driverRejected demoDist r1.1 demoMap "b" "R" r1.2.1
    r1.2.2 = [OutEvent.newRideRequest "sB" ⟨"R", locO, locD⟩] ∧
    r2.2.2 = [OutEvent.newRideRequest "sA" ⟨"R", locO, locD⟩] ∧
    (findNearbyDrivers demoDist (poolSetStatus r1.1 "b" "available")
        demoRide.pickup 10 (some "b")).map Candidate.uid = ["a"] := by
  exact ⟨by decide, by decide, by decide⟩

/-- C1 (amended): the candidate search run by the `driver_rejected` handler
excludes exactly the driver whose rejection triggered it — no candidate it
returns carries that driver's id — but the exclusion is not cumulative: a
driver that rejected (or timed out on) an earlier round for the same ride can
reappear once marked available, as the counterexample shows; reappearing for
a different ride is the same non-mechanism. -/
theorem C1_exclusion_not_cumulative (dist : Location → Location → ℚ)
    (pool : DriverPool) (d : String) (loc : Location)
    (hwf : ∀ p ∈ pool, (p.2).uid = p.1) :
    ∀ c ∈ findNearbyDrivers dist (poolSetStatus pool d "available") loc 10
        (some d), ¬ c.uid = d := by
  intro c hc
  rw [mem_findNearbyDrivers] at hc
  obtain ⟨p, hp, h1, h2, h3, rfl⟩ := hc
  simp only [poolSetStatus, alistUpdate] at hp
  obtain ⟨q, hq, hpq⟩ := List.mem_map.mp hp
  have huid : (p.2).uid = p.1 := by
    by_cases hqd : q.1 = d
    · rw [if_pos hqd] at hpq
      rw [← hpq]
      simpa using hwf q hq
    · rw [if_neg hqd] at hpq
      rw [← hpq]
      exact hwf q hq
  intro hcd
  apply h1
  have hd : (p.2).uid = d := by simpa [candidateOf] using hcd
  rw [huid] at hd
  rw [hd]

/-- Witness for C1 on the round-two pool of the counterexample scenario,
instantiated at the one candidate actually returned there. -/
theorem C1_exclusion_not_cumulative_witness :
    ¬ (candidateOf entA 1).uid = "b" :=
  C1_exclusion_not_cumulative demoDist
    [("a", entA), ("b", { entB with status := "pending" })] "b" locO
    (by decide) (candidateOf entA 1) (by decide)

/-- C4 counterexample: when the post-rejection candidate search comes back
empty, the ride is NOT put into a state named `no_drivers`; the handler
writes `status = "cancelled_system"` (with a cancellation reason) and
notifies the rider with `no_driver_found`. -/
theorem C4_exhaustion_status_not_no_drivers :
    (driverRejected demoDist [("a", { entA with status := "pending" })]
        demoMap "a" "R" (some demoRide)).2.1 =
      some { demoRide with
             status := "cancelled_system", rejectedBy := some "a",
             cancellationReason :=
               some "No drivers available after rejection." } ∧
    ¬ ((driverRejected demoDist [("a", { entA with status := "pending" })]
        demoMap "a" "R" (some demoRide)).2.1.map RideDoc.status =
          some "no_drivers") ∧
    (driverRejected demoDist [("a", { entA with status := "pending" })]
        demoMap "a" "R" (some demoRide)).2.2 =
      [OutEvent.noDriverFound "sr" "R"] := by
  exact ⟨by decide, by decide, by decide⟩

/-- C4 (amended): an empty candidate list emits no offer event in either code
path; in the post-rejection path the ride document is set to the terminal
`"cancelled_system"` (reason `"No drivers available after rejection."`) and
the rider is notified `no_driver_found`; in the initial `requestRide` path no
ride document exists yet and the caller receives either the no-drivers
response or the community-match fallback. -/
theorem C4_empty_search_behaviour (dist : Location → Location → ℚ)
    (pool : DriverPool) (map : SocketMap) (d rideId : String) (ride : RideDoc)
    (h : findNearbyDrivers dist (poolSetStatus pool d "available") ride.pickup
        10 (some d) = []) :
    (driverRejected dist pool map d rideId (some ride)).2.1 =
      some { ride with
             status := "cancelled_system", rejectedBy := some d,
             cancellationReason :=
               some "No drivers available after rejection." } ∧
    (driverRejected dist pool map d rideId (some ride)).2.2 =
      notifyUser map ride.riderId
        (fun sid => OutEvent.noDriverFound sid rideId) ∧
    (∀ sid det, OutEvent.newRideRequest sid det ∉
        (driverRejected dist pool map d rideId (some ride)).2.2) ∧
    ∀ (poolF poolS : DriverPool) (riders : RiderPool)
      (riderId rId : String) (pickup dest : Location),
      findNearbyDrivers dist poolF pickup 10 none = [] →
        requestRide dist poolF poolS riders riderId rId pickup dest =
            RequestRideResult.noMatches ∨
          ∃ ms, requestRide dist poolF poolS riders riderId rId pickup dest =
            RequestRideResult.communityMatch ms := by
  have e1 : driverRejected dist pool map d rideId (some ride) =
      (poolSetStatus pool d "available",
       some { ride with
              status := "cancelled_system", rejectedBy := some d,
              cancellationReason :=
                some "No drivers available after rejection." },
       notifyUser map ride.riderId
         (fun sid => OutEvent.noDriverFound sid rideId)) := by
    unfold driverRejected
    dsimp only
    rw [h]
  refine ⟨by rw [e1], by rw [e1], ?_, ?_⟩
  · intro sid det
    rw [e1]
    unfold notifyUser
    cases findSocketIdForUser map ride.riderId <;> simp
  · intro poolF poolS riders riderId rId pickup dest hF
    unfold requestRide
    rw [hF]
    by_cases hm : (findNearbyRiders dist riders riderId pickup dest).isEmpty
    · left
      simp [hm]
    · right
      refine ⟨findNearbyRiders dist riders riderId pickup dest, ?_⟩
      simp [hm]

/-- Witness for C4 with only the rejecting driver online. -/
theorem C4_empty_search_behaviour_witness :
    (driverRejected demoDist [("a", { entA with status := "pending" })]
        demoMap "a" "R2" (some demoRide)).2.1 =
      some { demoRide with
             status := "cancelled_system", rejectedBy := some "a",
             cancellationReason :=
               some "No drivers available after rejection." } ∧
    (driverRejected demoDist [("a", { entA with status := "pending" })]
        demoMap "a" "R2" (some demoRide)).2.2 =
      notifyUser demoMap demoRide.riderId
        (fun sid => OutEvent.noDriverFound sid "R2") ∧
    (∀ sid det, OutEvent.newRideRequest sid det ∉
        (driverRejected demoDist [("a", { entA with status := "pending" })]
          demoMap "a" "R2" (some demoRide)).2.2) ∧
    ∀ (poolF poolS : DriverPool) (riders : RiderPool)
      (riderId rId : String) (pickup dest : Location),
      findNearbyDrivers demoDist poolF pickup 10 none = [] →
        requestRide demoDist poolF poolS riders riderId rId pickup dest =
            RequestRideResult.noMatches ∨
          ∃ ms, requestRide demoDist poolF poolS riders riderId rId pickup
              dest = RequestRideResult.communityMatch ms :=
  C4_empty_search_behaviour demoDist [("a", { entA with status := "pending" })]
    demoMap "a" "R2" demoRide (by decide)

/-- Fixture: looking rider `"a"` with no pending invite. -/
def rdrA : RiderEntry := ⟨"sa", "a", locO, locD, none⟩

/-- Fixture: looking rider `"b"` holding a pending invite from `"c"`. -/
def rdrB : RiderEntry := ⟨"sb", "b", locO, locD, some ⟨"c", "dc"⟩⟩

/-- Fixture: looking rider `"b"` holding a pending invite from `"a"`. -/
def rdrB1 : RiderEntry := ⟨"sb", "b", locO, locD, some ⟨"a", "da"⟩⟩

/-- C5 counterexample, two parts.  First: rider `"b"` holds a pending invite
from `"c"`, yet answers `accept` naming `"a"` — the handler never compares
the recorded sender (`"c"`) with the id being responded to (`"a"`), so the
acceptance SUCCEEDS (accepted/video-call events fire, pairing `"a"` using
`"c"`'s stored details).  Second: when the check does fail (inviter absent),
the handler is not mutation-free — it clears the responder's pending
invite. -/
theorem C5_sender_id_unchecked :
    (rdrB.pendingRequestFrom = some ⟨"c", "dc"⟩ ∧ ¬ ("c" = "a") ∧
      (acceptCommunityConnection [("a", rdrA), ("b", rdrB)] "a" "b" "db" "sb"
          7).2 =
        [OutEvent.communityConnectionAccepted "sa" "b" "db",
         OutEvent.initiateVideoCall "sa" "video_7_a_b" "b" "db",
         OutEvent.initiateVideoCall "sb" "video_7_a_b" "a" "dc"]) ∧
    ((acceptCommunityConnection [("b", rdrB)] "a" "b" "db" "sb" 7).2 =
        [OutEvent.communityVideoFailed "sb"
          "Other user disconnected or request expired."] ∧
      alistLookup (acceptCommunityConnection [("b", rdrB)] "a" "b" "db" "sb"
          7).1 "b" = some { rdrB with pendingRequestFrom := none } ∧
      ¬ alistLookup (acceptCommunityConnection [("b", rdrB)] "a" "b" "db"
          "sb" 7).1 "b" = some rdrB) := by
  exact ⟨⟨by decide, by decide, by decide⟩, by decide, by decide, by decide⟩

/-- C5 (amended): the acceptance succeeds exactly when the accepted rider is
still in the pool AND the responder's entry records some pending invite with
details — the invite's sender id is never compared to the id being responded
to.  On failure the responder gets the explicit
`community_video_failed` signal, and the pool is not left untouched: the
responder's pending invite (if any) is cleared. -/
theorem C5_accept_guard_behaviour (riders : RiderPool)
    (a b det sock : String) (ts : Nat) :
    (∀ eA req, alistLookup riders a = some eA →
        (alistLookup riders b).bind (fun e => e.pendingRequestFrom) =
          some req →
        acceptCommunityConnection riders a b det sock ts =
          (alistRemove (alistRemove
              (alistUpdate riders b
                (fun e => { e with pendingRequestFrom := none })) a) b,
           [OutEvent.communityConnectionAccepted eA.socketId b det,
            OutEvent.initiateVideoCall eA.socketId
              ("video_" ++ toString ts ++ "_" ++ a ++ "_" ++ b) b det,
            OutEvent.initiateVideoCall sock
              ("video_" ++ toString ts ++ "_" ++ a ++ "_" ++ b) a
              req.details])) ∧
    ((alistLookup riders a = none ∨
        (alistLookup riders b).bind (fun e => e.pendingRequestFrom) = none) →
      acceptCommunityConnection riders a b det sock ts =
        (alistUpdate riders b (fun e => { e with pendingRequestFrom := none }),
         [OutEvent.communityVideoFailed sock
            "Other user disconnected or request expired."])) := by
  constructor
  · intro eA req hA hB
    cases hLB : alistLookup riders b with
    | none =>
      rw [hLB] at hB
      simp at hB
    | some eB =>
      rw [hLB] at hB
      simp only [Option.some_bind] at hB
      unfold acceptCommunityConnection
      rw [hA, hLB]
      simp [hB]
  · intro hfail
    rcases hfail with ha | hb
    · unfold acceptCommunityConnection
      rw [ha]
    · cases hLA : alistLookup riders a with
      | none =>
        unfold acceptCommunityConnection
        rw [hLA]
      | some eA =>
        cases hLB : alistLookup riders b with
        | none =>
          unfold acceptCommunityConnection
          rw [hLA, hLB]
          rfl
        | some eB =>
          rw [hLB] at hb
          simp only [Option.some_bind] at hb
          unfold acceptCommunityConnection
          rw [hLA, hLB]
          simp [hb]

/-- Witness for C5: one success instance and one failure instance. -/
theorem C5_accept_guard_behaviour_witness :
    acceptCommunityConnection [("a", rdrA), ("b", rdrB)] "a" "b" "db" "sb"
        7 =
      (alistRemove (alistRemove
          (alistUpdate [("a", rdrA), ("b", rdrB)] "b"
            (fun e => { e with pendingRequestFrom := none })) "a") "b",
       [OutEvent.communityConnectionAccepted rdrA.socketId "b" "db",
        OutEvent.initiateVideoCall rdrA.socketId
          ("video_" ++ toString 7 ++ "_" ++ "a" ++ "_" ++ "b") "b" "db",
        OutEvent.initiateVideoCall "sb"
          ("video_" ++ toString 7 ++ "_" ++ "a" ++ "_" ++ "b") "a"
          (PendingRequest.mk "c" "dc").details]) ∧
    acceptCommunityConnection [("b", rdrB)] "a" "b" "db" "sb" 7 =
      (alistUpdate [("b", rdrB)] "b"
          (fun e => { e with pendingRequestFrom := none }),
       [OutEvent.communityVideoFailed "sb"
          "Other user disconnected or request expired."]) :=
  ⟨(C5_accept_guard_behaviour [("a", rdrA), ("b", rdrB)] "a" "b" "db" "sb"
      7).1 rdrA ⟨"c", "dc"⟩ (by decide) (by decide),
   (C5_accept_guard_behaviour [("b", rdrB)] "a" "b" "db" "sb" 7).2
     (Or.inl (by decide))⟩

/-- C6: riders `a` and `b` both in the looking pool with `b` holding `a`'s
invite; `b` accepts.  One session (video-room) id is generated; `a` receives
the acceptance and an `initiate_video_call` carrying it together with `b`'s
details, `b` receives an `initiate_video_call` with the SAME id and `a`'s
stored invite details; both entries leave the pool, and any subsequent invite
addressed to `a` or to `b` fails with `"User is no longer available."`. -/
theorem C6_handshake_success (riders : RiderPool) (a b da det sock : String)
    (ts : Nat) (eA eB : RiderEntry)
    (hA : alistLookup riders a = some eA)
    (hB : alistLookup riders b = some eB)
    (hpend : eB.pendingRequestFrom = some ⟨a, da⟩) :
    (acceptCommunityConnection riders a b det sock ts).2 =
      [OutEvent.communityConnectionAccepted eA.socketId b det,
       OutEvent.initiateVideoCall eA.socketId
         ("video_" ++ toString ts ++ "_" ++ a ++ "_" ++ b) b det,
       OutEvent.initiateVideoCall sock
         ("video_" ++ toString ts ++ "_" ++ a ++ "_" ++ b) a da] ∧
    alistLookup (acceptCommunityConnection riders a b det sock ts).1 a =
      none ∧
    alistLookup (acceptCommunityConnection riders a b det sock ts).1 b =
      none ∧
    (∀ c cdet csock, requestCommunityConnection
        (acceptCommunityConnection riders a b det sock ts).1 c a cdet
        csock =
      ((acceptCommunityConnection riders a b det sock ts).1,
       [OutEvent.communityRequestFailed csock a
          "User is no longer available."])) ∧
    (∀ c cdet csock, requestCommunityConnection
        (acceptCommunityConnection riders a b det sock ts).1 c b cdet
        csock =
      ((acceptCommunityConnection riders a b det sock ts).1,
       [OutEvent.communityRequestFailed csock b
          "User is no longer available."])) := by
  have e1 : acceptCommunityConnection riders a b det sock ts =
      (alistRemove (alistRemove
          (alistUpdate riders b
            (fun e => { e with pendingRequestFrom := none })) a) b,
       [OutEvent.communityConnectionAccepted eA.socketId b det,
        OutEvent.initiateVideoCall eA.socketId
          ("video_" ++ toString ts ++ "_" ++ a ++ "_" ++ b) b det,
        OutEvent.initiateVideoCall sock
          ("video_" ++ toString ts ++ "_" ++ a ++ "_" ++ b) a da]) := by
    unfold acceptCommunityConnection
    rw [hA, hB]
    simp [hpend]
  have hla : alistLookup
      (acceptCommunityConnection riders a b det sock ts).1 a = none := by
    rw [e1]
    simp [alistLookup_remove]
  have hlb : alistLookup
      (acceptCommunityConnection riders a b det sock ts).1 b = none := by
    rw [e1]
    simp [alistLookup_remove]
  refine ⟨by rw [e1], hla, hlb, ?_, ?_⟩
  · intro c cdet csock
    unfold requestCommunityConnection
    rw [hla]
  · intro c cdet csock
    unfold requestCommunityConnection
    rw [hlb]

/-- Witness for C6 on a concrete two-rider pool. -/
theorem C6_handshake_success_witness :
    (acceptCommunityConnection [("a", rdrA), ("b", rdrB1)] "a" "b" "db" "sb"
        9).2 =
      [OutEvent.communityConnectionAccepted rdrA.socketId "b" "db",
       OutEvent.initiateVideoCall rdrA.socketId
         ("video_" ++ toString 9 ++ "_" ++ "a" ++ "_" ++ "b") "b" "db",
       OutEvent.initiateVideoCall "sb"
         ("video_" ++ toString 9 ++ "_" ++ "a" ++ "_" ++ "b") "a" "da"] ∧
    alistLookup (acceptCommunityConnection [("a", rdrA), ("b", rdrB1)] "a"
        "b" "db" "sb" 9).1 "a" = none ∧
    alistLookup (acceptCommunityConnection [("a", rdrA), ("b", rdrB1)] "a"
        "b" "db" "sb" 9).1 "b" = none ∧
    (∀ c cdet csock, requestCommunityConnection
        (acceptCommunityConnection [("a", rdrA), ("b", rdrB1)] "a" "b" "db"
          "sb" 9).1 c "a" cdet csock =
      ((acceptCommunityConnection [("a", rdrA), ("b", rdrB1)] "a" "b" "db"
          "sb" 9).1,
       [OutEvent.communityRequestFailed csock "a"
          "User is no longer available."])) ∧
    (∀ c cdet csock, requestCommunityConnection
        (acceptCommunityConnection [("a", rdrA), ("b", rdrB1)] "a" "b" "db"
          "sb" 9).1 c "b" cdet csock =
      ((acceptCommunityConnection [("a", rdrA), ("b", rdrB1)] "a" "b" "db"
          "sb" 9).1,
       [OutEvent.communityRequestFailed csock "b"
          "User is no longer available."])) :=
  C6_handshake_success [("a", rdrA), ("b", rdrB1)] "a" "b" "da" "db" "sb" 9
    rdrA rdrB1 (by decide) (by decide) (by decide)

/-- C8: claim says a failed offer send re-marks the candidate available and
recurses excluding that id.  Concrete run of `requestRide`: the search (on
the pool as of the lookup) picks `"a"`; by send time `"a"` has dropped out of
the pool, so the send fails — and the controller cancels the ride
(`"cancelled_system"`, reason `"Driver unavailable"`, HTTP 503 "try again")
instead of recursing, although driver `"b"` is available in the send-time
pool (second and third conjuncts).  The source marks the spot with
`TODO: Implement logic to try the next driver`. -/
theorem C8_send_failure_cancels_ride :
    requestRide demoDist [("a", entA), ("b", entB)] [("b", entB)] [] "r" "R"
        locO locD =
      RequestRideResult.driverUnreachable
        { rideId := "R", riderId := "r", status := "cancelled_system",
          pickup := locO, destination := locD, driverId := none,
          rejectedBy := none,
          cancellationReason := some "Driver unavailable" } [("b", entB)] ∧
    alistLookup [("b", entB)] "b" = some entB ∧
    entB.status = "available" ∧ demoDist locO entB.location ≤ 10 := by
  exact ⟨by decide, by decide, by decide, by decide⟩

end NavigateHer
